import Mathlib

/-!
Shallow embedding of the marching-tetrahedra implementation in
`src/include/marching_tetrahedrons.h` and the driver loop of `src/src/main.cpp`.

Modelling conventions:
* `cv::Point3f` becomes `Point3` with rational coordinates; `float` scalars
  (densities, the `ISOVALUE` threshold, coordinates) become `ℚ`.  The claims
  under study involve only field arithmetic that is exact in both binary
  floating point and `ℚ` at the inputs considered.
* `ISOVALUE` is a compile-time constant from `parameters.h` (not part of the
  algorithmic sources); it is threaded through as an explicit argument `iso`.
* C++ `std::vector` becomes `List`.  Reads `v[i]` at in-bounds indices become
  `List.getD i default`; the single read that can go out of bounds in the
  source (`pointcloud.density[idx - 1]` in `init_voxel_vertices`) is modelled
  totally by `vecGet?`, which returns `none` exactly when the C++ read is out
  of bounds.
* The three pipeline functions `divide_into_six_triangles`,
  `get_vertice_density` and `make_triangle` receive their output vectors BY
  VALUE in the C++ source (no `&`), so their `push_back`s land in local copies
  that are discarded on return.  Each is therefore embedded twice: a `_local`
  function computing the final value of the callee's local copy (the loop body
  as written), and the caller-visible semantics inside `process_cell`, where
  the caller's vector is unchanged by the call.
-/

/-- 3D point with rational coordinates, embedding `cv::Point3f`. -/
structure Point3 where
  x : ℚ
  y : ℚ
  z : ℚ
deriving DecidableEq, Repr

/-- A point set tagged with densities, embedding `PointCloud`
(parallel arrays `vertices`, `density`). -/
structure PointCloud where
  vertices : List Point3
  density : List ℚ
deriving DecidableEq, Repr

/-- Embeds `Voxel`: 8 corner positions and 8 parallel densities. -/
structure Voxel where
  vertices : List Point3
  density : List ℚ
deriving DecidableEq, Repr

/-- Embeds `Tetrahedron`: 4 vertex positions p0..p3 and 4 parallel densities. -/
structure Tetrahedron where
  vertices : List Point3
  density : List ℚ
deriving DecidableEq, Repr

/-- Embeds `Triangle`: 3 interpolated vertex positions. -/
structure Triangle where
  vertices : List Point3
deriving DecidableEq, Repr

/-- Default point used as the (never-reached) `getD` fallback for in-bounds
vector reads. -/
def pt0 : Point3 := ⟨0, 0, 0⟩

/-- `interpolation` (marching_tetrahedrons.h, lines 60-70): the point on
segment pt1-pt2 where the linearly interpolated density reaches `isovalue`.
In `ℚ` a division by zero yields 0 (the C++ float would produce inf/nan). -/
def interpolation (pt1 pt2 : Point3) (pt1_density pt2_density isovalue : ℚ) : Point3 :=
  let mu := (isovalue - pt1_density) / (pt2_density - pt1_density)
  let inter_x := pt1.x + mu * (pt2.x - pt1.x)
  let inter_y := pt1.y + mu * (pt2.y - pt1.y)
  let inter_z := pt1.z + mu * (pt2.z - pt1.z)
  ⟨inter_x, inter_y, inter_z⟩

/-- Total model of a C++ `std::vector<float>` read at a signed index:
`none` exactly when the read is out of bounds. -/
def vecGet? (l : List ℚ) (i : ℤ) : Option ℚ :=
  if i < 0 then none else l.get? i.toNat

/-- The density lookup performed per corner by `init_voxel_vertices`
(lines 96-105): `std::find` over `pointcloud.vertices`; if absent, density 1;
if found at index `idx`, the source reads `pointcloud.density[idx - 1]`
(with `idx - 1` computed in `int`, hence -1 when `idx = 0`). -/
def density_read (pointcloud : PointCloud) (vertex : Point3) : Option ℚ :=
  match pointcloud.vertices.findIdx? (fun p => decide (p = vertex)) with
  | none => some 1
  | some idx => vecGet? pointcloud.density ((idx : ℤ) - 1)

/-- The 8 corner positions pushed by `init_voxel_vertices` (lines 76-92),
in push order v0..v7. -/
def voxel_corners (cur_x cur_y cur_z diff_x diff_y diff_z : ℚ) : List Point3 :=
  [⟨cur_x,          cur_y,          cur_z⟩,
   ⟨cur_x + diff_x, cur_y,          cur_z⟩,
   ⟨cur_x + diff_x, cur_y,          cur_z + diff_z⟩,
   ⟨cur_x,          cur_y,          cur_z + diff_z⟩,
   ⟨cur_x,          cur_y + diff_y, cur_z⟩,
   ⟨cur_x + diff_x, cur_y + diff_y, cur_z⟩,
   ⟨cur_x + diff_x, cur_y + diff_y, cur_z + diff_z⟩,
   ⟨cur_x,          cur_y + diff_y, cur_z + diff_z⟩]

/-- `init_voxel_vertices` (lines 73-106).  The voxel is passed by reference in
the source, so this stage's effect IS caller-visible; we return the built
voxel.  For the density entry, `(density_read ..).getD 0` totalizes the one
undefined (out-of-bounds) read; the `0` stands for an unspecified garbage
float and no theorem below depends on it. -/
def init_voxel_vertices (pointcloud : PointCloud)
    (cur_x cur_y cur_z diff_x diff_y diff_z : ℚ) : Voxel :=
  let corners := voxel_corners cur_x cur_y cur_z diff_x diff_y diff_z
  { vertices := corners
    density := corners.map (fun v => (density_read pointcloud v).getD 0) }

/-- Builds one `Tetrahedron` from four voxel corner indices (the repeated
`push_back` pattern of `divide_into_six_triangles`, lines 109-183). -/
def tetra_of (cur_voxel : Voxel) (i0 i1 i2 i3 : ℕ) : Tetrahedron :=
  { vertices := [cur_voxel.vertices.getD i0 pt0, cur_voxel.vertices.getD i1 pt0,
                 cur_voxel.vertices.getD i2 pt0, cur_voxel.vertices.getD i3 pt0]
    density := [cur_voxel.density.getD i0 0, cur_voxel.density.getD i1 0,
                cur_voxel.density.getD i2 0, cur_voxel.density.getD i3 0] }

/-- Value of the local copy of `cur_six_tetrahedrons` at the end of
`divide_into_six_triangles` (lines 109-183): the caller's list plus t1..t6
with the exact corner indices of the source. -/
def divide_into_six_triangles_local (cur_voxel : Voxel)
    (cur_six_tetrahedrons : List Tetrahedron) : List Tetrahedron :=
  cur_six_tetrahedrons ++
    [tetra_of cur_voxel 3 7 4 5,
     tetra_of cur_voxel 3 7 5 6,
     tetra_of cur_voxel 3 5 4 0,
     tetra_of cur_voxel 5 1 0 3,
     tetra_of cur_voxel 5 1 3 2,
     tetra_of cur_voxel 3 5 2 6]

/-- The 16-case table of `get_vertice_density` (lines 206-237): the if-else
chain over the four `inside` booleans, producing the 6-entry edge rule
`std::array<int, 6>` in edge order p0p1, p0p2, p0p3, p1p2, p2p3, p3p1. -/
def case_table (p0_value p1_value p2_value p3_value : Bool) : List ℤ :=
  match p0_value, p1_value, p2_value, p3_value with
  | false, false, false, false => [0, 0, 0, 0, 0, 0]
  | false, false, false, true  => [0, 0, 1, 0, 1, 1]
  | false, false, true,  false => [0, 1, 0, 1, 1, 0]
  | false, false, true,  true  => [0, 1, 1, 1, 0, 1]
  | false, true,  false, false => [1, 0, 0, 1, 0, 1]
  | false, true,  false, true  => [1, 0, 1, 1, 1, 0]
  | false, true,  true,  false => [1, 1, 0, 0, 1, 1]
  | false, true,  true,  true  => [1, 1, 1, 0, 0, 0]
  | true,  false, false, false => [1, 1, 1, 0, 0, 0]
  | true,  false, false, true  => [1, 1, 0, 0, 1, 1]
  | true,  false, true,  false => [1, 0, 1, 1, 1, 0]
  | true,  false, true,  true  => [1, 0, 0, 1, 0, 1]
  | true,  true,  false, false => [0, 1, 1, 1, 0, 1]
  | true,  true,  false, true  => [0, 1, 0, 1, 1, 0]
  | true,  true,  true,  false => [0, 0, 1, 0, 1, 1]
  | true,  true,  true,  true  => [0, 0, 0, 0, 0, 0]

/-- Loop body of `get_vertice_density` (lines 190-239) for one tetrahedron:
classify the four corner densities against `iso` and look up the edge rule. -/
def classify_tet (iso : ℚ) (cur_tetrahedron : Tetrahedron) : List ℤ :=
  case_table (decide (cur_tetrahedron.density.getD 0 0 < iso))
             (decide (cur_tetrahedron.density.getD 1 0 < iso))
             (decide (cur_tetrahedron.density.getD 2 0 < iso))
             (decide (cur_tetrahedron.density.getD 3 0 < iso))

/-- Value of the local copy of `cur_six_edges_rule` at the end of
`get_vertice_density` (lines 185-241). -/
def get_vertice_density_local (iso : ℚ) (cur_six_tetrahedrons : List Tetrahedron)
    (cur_six_edges_rule : List (List ℤ)) : List (List ℤ) :=
  cur_six_edges_rule ++ cur_six_tetrahedrons.map (classify_tet iso)

/-- The density arguments of the six `interpolation` calls that the loop body
of `make_triangle` performs unconditionally (lines 249-254), before any test
of the edge rule, in call order p01, p02, p03, p12, p23, p31. -/
def interpolation_calls (cur_tetra : Tetrahedron) : List (ℚ × ℚ) :=
  [(cur_tetra.density.getD 0 0, cur_tetra.density.getD 1 0),
   (cur_tetra.density.getD 0 0, cur_tetra.density.getD 2 0),
   (cur_tetra.density.getD 0 0, cur_tetra.density.getD 3 0),
   (cur_tetra.density.getD 1 0, cur_tetra.density.getD 2 0),
   (cur_tetra.density.getD 2 0, cur_tetra.density.getD 3 0),
   (cur_tetra.density.getD 3 0, cur_tetra.density.getD 1 0)]

/-- Loop body of `make_triangle` (lines 245-324) for one tetrahedron and its
edge rule: the six interpolation points are computed unconditionally, then the
if-else chain on the rule emits 0, 1 or 2 triangles; a rule matching no branch
emits nothing (the chain has no final else). -/
def make_triangle_tetra (iso : ℚ) (cur_tetra : Tetrahedron) (rule : List ℤ) :
    List Triangle :=
  let p01 := interpolation (cur_tetra.vertices.getD 0 pt0) (cur_tetra.vertices.getD 1 pt0)
               (cur_tetra.density.getD 0 0) (cur_tetra.density.getD 1 0) iso
  let p02 := interpolation (cur_tetra.vertices.getD 0 pt0) (cur_tetra.vertices.getD 2 pt0)
               (cur_tetra.density.getD 0 0) (cur_tetra.density.getD 2 0) iso
  let p03 := interpolation (cur_tetra.vertices.getD 0 pt0) (cur_tetra.vertices.getD 3 pt0)
               (cur_tetra.density.getD 0 0) (cur_tetra.density.getD 3 0) iso
  let p12 := interpolation (cur_tetra.vertices.getD 1 pt0) (cur_tetra.vertices.getD 2 pt0)
               (cur_tetra.density.getD 1 0) (cur_tetra.density.getD 2 0) iso
  let p23 := interpolation (cur_tetra.vertices.getD 2 pt0) (cur_tetra.vertices.getD 3 pt0)
               (cur_tetra.density.getD 2 0) (cur_tetra.density.getD 3 0) iso
  let p31 := interpolation (cur_tetra.vertices.getD 3 pt0) (cur_tetra.vertices.getD 1 pt0)
               (cur_tetra.density.getD 3 0) (cur_tetra.density.getD 1 0) iso
  if rule = [0, 0, 0, 0, 0, 0] then []
  else if rule = [0, 0, 1, 0, 1, 1] then [⟨[p03, p23, p31]⟩]
  else if rule = [0, 1, 0, 1, 1, 0] then [⟨[p02, p12, p23]⟩]
  else if rule = [0, 1, 1, 1, 0, 1] then [⟨[p02, p03, p31]⟩, ⟨[p02, p31, p12]⟩]
  else if rule = [1, 0, 0, 1, 0, 1] then [⟨[p01, p12, p31]⟩]
  else if rule = [1, 0, 1, 1, 1, 0] then [⟨[p01, p03, p23]⟩, ⟨[p01, p12, p23]⟩]
  else if rule = [1, 1, 0, 0, 1, 1] then [⟨[p01, p02, p31]⟩, ⟨[p02, p23, p31]⟩]
  else if rule = [1, 1, 1, 0, 0, 0] then [⟨[p01, p02, p03]⟩]
  else []

/-- Value of the local copy of `triangles` at the end of `make_triangle`
(lines 243-325): the loop runs `t` over the tetrahedron list, pairing each
with `cur_six_edges_rule[t]` (the source assumes equal lengths; `zip`
truncates at the shorter list, which is the only defined case). -/
def make_triangle_local (iso : ℚ) (triangles : List Triangle)
    (cur_six_tetrahedrons : List Tetrahedron)
    (cur_six_edges_rule : List (List ℤ)) : List Triangle :=
  triangles ++
    ((cur_six_tetrahedrons.zip cur_six_edges_rule).map
      (fun p => make_triangle_tetra iso p.1 p.2)).flatten

/-- Body of the innermost loop of `main` (main.cpp, lines 58-77) for one cell
origin.  `init_voxel_vertices` takes the voxel by reference, so its effect is
real; the three following stages receive their output vectors by value, so
each `_local` result is computed in a discarded copy and the caller's lists
keep the values they were initialized with — in particular the accumulated
`triangles` list is returned unchanged. -/
def process_cell (iso : ℚ) (pointcloud_with_density : PointCloud)
    (triangles : List Triangle) (x y z voxel_dx voxel_dy voxel_dz : ℚ) :
    List Triangle :=
  let cur_voxel := init_voxel_vertices pointcloud_with_density x y z
                     voxel_dx voxel_dy voxel_dz
  let cur_six_tetrahedrons : List Tetrahedron := []
  let _discarded_tetrahedrons :=
    divide_into_six_triangles_local cur_voxel cur_six_tetrahedrons
  let cur_six_edges_rule : List (List ℤ) := []
  let _discarded_rules :=
    get_vertice_density_local iso cur_six_tetrahedrons cur_six_edges_rule
  let _discarded_triangles :=
    make_triangle_local iso triangles cur_six_tetrahedrons cur_six_edges_rule
  triangles

/-- The Cell Traversal Driver of `main` (main.cpp, lines 53-77): starting from
an empty `triangles` vector, process every cell origin produced by the three
nested loops (the origin list is a parameter; its generation lives in
`utility.h`, outside the algorithmic sources). -/
def driver (iso : ℚ) (pointcloud_with_density : PointCloud)
    (origins : List Point3) (voxel_dx voxel_dy voxel_dz : ℚ) : List Triangle :=
  origins.foldl
    (fun triangles o =>
      process_cell iso pointcloud_with_density triangles o.x o.y o.z
        voxel_dx voxel_dy voxel_dz)
    []

/-- The Case Table exactly as written in spec section 4.3 (inside pattern for
p0 p1 p2 p3 mapped to the 6-bit edge-crossing mask), transcribed from the
spec's words for refinement comparison with `case_table` from the source. -/
def spec_table_4_3 (p0 p1 p2 p3 : Bool) : List ℤ :=
  match p0, p1, p2, p3 with
  | false, false, false, false => [0, 0, 0, 0, 0, 0]
  | false, false, false, true  => [0, 0, 1, 0, 1, 1]
  | false, false, true,  false => [0, 1, 0, 1, 1, 0]
  | false, false, true,  true  => [0, 1, 1, 1, 0, 1]
  | false, true,  false, false => [1, 0, 0, 1, 0, 1]
  | false, true,  false, true  => [1, 0, 1, 1, 1, 0]
  | false, true,  true,  false => [1, 1, 0, 0, 1, 1]
  | false, true,  true,  true  => [1, 1, 1, 0, 0, 0]
  | true,  false, false, false => [1, 1, 1, 0, 0, 0]
  | true,  false, false, true  => [1, 1, 0, 0, 1, 1]
  | true,  false, true,  false => [1, 0, 1, 1, 1, 0]
  | true,  false, true,  true  => [1, 0, 0, 1, 0, 1]
  | true,  true,  false, false => [0, 1, 1, 1, 0, 1]
  | true,  true,  false, true  => [0, 1, 0, 1, 1, 0]
  | true,  true,  true,  false => [0, 0, 1, 0, 1, 1]
  | true,  true,  true,  true  => [0, 0, 0, 0, 0, 0]

/-- Extensionality for `Point3`. -/
lemma point3_eq {a b : Point3} (hx : a.x = b.x) (hy : a.y = b.y) (hz : a.z = b.z) :
    a = b := by
  cases a; cases b; simp_all

/-- The scenario-2 voxel: unit cube at the origin whose corner v0 has density
below the isovalue 1 and whose seven other corners lie above it. -/
def scenario2_voxel : Voxel :=
  { vertices := voxel_corners 0 0 0 1 1 1
    density := [0, 2, 2, 2, 2, 2, 2, 2] }

/-- The six tetrahedra the decomposer builds (locally) for the scenario-2
voxel. -/
def scenario2_tets : List Tetrahedron := divide_into_six_triangles_local scenario2_voxel []

/-- The six edge rules the classifier computes (locally) for the scenario-2
tetrahedra at isovalue 1. -/
def scenario2_rules : List (List ℤ) := get_vertice_density_local 1 scenario2_tets []

/-- A point cloud whose samples are the scenario-2 voxel's corners. -/
def scenario2_pointcloud : PointCloud :=
  ⟨voxel_corners 0 0 0 1 1 1, [0, 2, 2, 2, 2, 2, 2, 2]⟩

/-- The source table agrees entry-by-entry with the table of spec section 4.3. -/
lemma case_table_eq_spec_table (b0 b1 b2 b3 : Bool) :
    case_table b0 b1 b2 b3 = spec_table_4_3 b0 b1 b2 b3 := by
  cases b0 <;> cases b1 <;> cases b2 <;> cases b3 <;> rfl

/-- C9: for every cell origin (x,y,z) and extents (dx,dy,dz), the Voxel
Builder produces exactly 8 corner positions in the fixed order v0=(x,y,z),
v1=(x+dx,y,z), v2=(x+dx,y,z+dz), v3=(x,y,z+dz), v4=(x,y+dy,z),
v5=(x+dx,y+dy,z), v6=(x+dx,y+dy,z+dz), v7=(x,y+dy,z+dz). -/
theorem voxel_builder_corner_order (pc : PointCloud) (x y z dx dy dz : ℚ) :
    (init_voxel_vertices pc x y z dx dy dz).vertices =
      [⟨x, y, z⟩, ⟨x + dx, y, z⟩, ⟨x + dx, y, z + dz⟩, ⟨x, y, z + dz⟩,
       ⟨x, y + dy, z⟩, ⟨x + dx, y + dy, z⟩, ⟨x + dx, y + dy, z + dz⟩,
       ⟨x, y + dy, z + dz⟩] := rfl

/-- C5: for every voxel (given by its 8 corners and 8 densities) the
Tetrahedral Decomposer builds exactly 6 tetrahedra, appended in order, whose
(p0,p1,p2,p3) vertices and densities are drawn from the voxel corners under
exactly the fixed index assignment T1=(3,7,4,5), T2=(3,7,5,6), T3=(3,5,4,0),
T4=(5,1,0,3), T5=(5,1,3,2), T6=(3,5,2,6). -/
theorem decomposer_fixed_assignment
    (v0 v1 v2 v3 v4 v5 v6 v7 : Point3) (d0 d1 d2 d3 d4 d5 d6 d7 : ℚ)
    (cur : List Tetrahedron) :
    divide_into_six_triangles_local ⟨[v0, v1, v2, v3, v4, v5, v6, v7],
                                     [d0, d1, d2, d3, d4, d5, d6, d7]⟩ cur =
      cur ++
        [⟨[v3, v7, v4, v5], [d3, d7, d4, d5]⟩,
         ⟨[v3, v7, v5, v6], [d3, d7, d5, d6]⟩,
         ⟨[v3, v5, v4, v0], [d3, d5, d4, d0]⟩,
         ⟨[v5, v1, v0, v3], [d5, d1, d0, d3]⟩,
         ⟨[v5, v1, v3, v2], [d5, d1, d3, d2]⟩,
         ⟨[v3, v5, v2, v6], [d3, d5, d2, d6]⟩] := rfl

/-- C8: the Case Table is point-symmetric — every 4-bit inside pattern and
its bitwise complement map to the identical 6-element edge-crossing mask. -/
theorem case_table_point_symmetric (b0 b1 b2 b3 : Bool) :
    case_table (!b0) (!b1) (!b2) (!b3) = case_table b0 b1 b2 b3 := by
  cases b0 <;> cases b1 <;> cases b2 <;> cases b3 <;> rfl

/-- C2: for every 4-tuple of densities and threshold, the Case Classifier
computes the four booleans density < iso and returns exactly the 6-element
mask that the table of spec section 4.3 assigns to that inside pattern; in
particular the patterns FFFT, FFTF, FTTF and TTTT map to 001011, 010110,
110011 and 000000 respectively. -/
theorem classifier_matches_spec_table
    (p0 p1 p2 p3 : Point3) (d0 d1 d2 d3 iso : ℚ) :
    classify_tet iso ⟨[p0, p1, p2, p3], [d0, d1, d2, d3]⟩ =
      spec_table_4_3 (decide (d0 < iso)) (decide (d1 < iso))
        (decide (d2 < iso)) (decide (d3 < iso))
    ∧ spec_table_4_3 false false false true = [0, 0, 1, 0, 1, 1]
    ∧ spec_table_4_3 false false true false = [0, 1, 0, 1, 1, 0]
    ∧ spec_table_4_3 false true true false = [1, 1, 0, 0, 1, 1]
    ∧ spec_table_4_3 true true true true = [0, 0, 0, 0, 0, 0] :=
  ⟨case_table_eq_spec_table _ _ _ _, rfl, rfl, rfl, rfl⟩

/-- C3: for each of the 8 mask values occurring in the Case Table the
Triangulator emits exactly the triangle vertex lists of the fixed recipe of
spec section 4.4 (so the triangle counts per mask are exactly
0,1,1,2,1,2,2,1), and the Case Table produces no mask value outside these 8. -/
theorem triangulator_fixed_recipe
    (v0 v1 v2 v3 : Point3) (d0 d1 d2 d3 iso : ℚ) :
    make_triangle_tetra iso ⟨[v0, v1, v2, v3], [d0, d1, d2, d3]⟩
        [0, 0, 0, 0, 0, 0] = []
    ∧ make_triangle_tetra iso ⟨[v0, v1, v2, v3], [d0, d1, d2, d3]⟩
        [0, 0, 1, 0, 1, 1] =
        [⟨[interpolation v0 v3 d0 d3 iso, interpolation v2 v3 d2 d3 iso,
           interpolation v3 v1 d3 d1 iso]⟩]
    ∧ make_triangle_tetra iso ⟨[v0, v1, v2, v3], [d0, d1, d2, d3]⟩
        [0, 1, 0, 1, 1, 0] =
        [⟨[interpolation v0 v2 d0 d2 iso, interpolation v1 v2 d1 d2 iso,
           interpolation v2 v3 d2 d3 iso]⟩]
    ∧ make_triangle_tetra iso ⟨[v0, v1, v2, v3], [d0, d1, d2, d3]⟩
        [0, 1, 1, 1, 0, 1] =
        [⟨[interpolation v0 v2 d0 d2 iso, interpolation v0 v3 d0 d3 iso,
           interpolation v3 v1 d3 d1 iso]⟩,
         ⟨[interpolation v0 v2 d0 d2 iso, interpolation v3 v1 d3 d1 iso,
           interpolation v1 v2 d1 d2 iso]⟩]
    ∧ make_triangle_tetra iso ⟨[v0, v1, v2, v3], [d0, d1, d2, d3]⟩
        [1, 0, 0, 1, 0, 1] =
        [⟨[interpolation v0 v1 d0 d1 iso, interpolation v1 v2 d1 d2 iso,
           interpolation v3 v1 d3 d1 iso]⟩]
    ∧ make_triangle_tetra iso ⟨[v0, v1, v2, v3], [d0, d1, d2, d3]⟩
        [1, 0, 1, 1, 1, 0] =
        [⟨[interpolation v0 v1 d0 d1 iso, interpolation v0 v3 d0 d3 iso,
           interpolation v2 v3 d2 d3 iso]⟩,
         ⟨[interpolation v0 v1 d0 d1 iso, interpolation v1 v2 d1 d2 iso,
           interpolation v2 v3 d2 d3 iso]⟩]
    ∧ make_triangle_tetra iso ⟨[v0, v1, v2, v3], [d0, d1, d2, d3]⟩
        [1, 1, 0, 0, 1, 1] =
        [⟨[interpolation v0 v1 d0 d1 iso, interpolation v0 v2 d0 d2 iso,
           interpolation v3 v1 d3 d1 iso]⟩,
         ⟨[interpolation v0 v2 d0 d2 iso, interpolation v2 v3 d2 d3 iso,
           interpolation v3 v1 d3 d1 iso]⟩]
    ∧ make_triangle_tetra iso ⟨[v0, v1, v2, v3], [d0, d1, d2, d3]⟩
        [1, 1, 1, 0, 0, 0] =
        [⟨[interpolation v0 v1 d0 d1 iso, interpolation v0 v2 d0 d2 iso,
           interpolation v0 v3 d0 d3 iso]⟩]
    ∧ (∀ b0 b1 b2 b3 : Bool, case_table b0 b1 b2 b3 ∈
        ([[0, 0, 0, 0, 0, 0], [0, 0, 1, 0, 1, 1], [0, 1, 0, 1, 1, 0],
          [0, 1, 1, 1, 0, 1], [1, 0, 0, 1, 0, 1], [1, 0, 1, 1, 1, 0],
          [1, 1, 0, 0, 1, 1], [1, 1, 1, 0, 0, 0]] : List (List ℤ))) := by
  refine ⟨rfl, rfl, rfl, rfl, rfl, rfl, rfl, rfl, ?_⟩
  intro b0 b1 b2 b3
  cases b0 <;> cases b1 <;> cases b2 <;> cases b3 <;> decide

/-- C7: for positions A, B with densities dA, dB (dA distinct from dB) and
threshold iso, interpolation returns the affine point (1-t)A + tB with
t = (iso - dA)/(dB - dA); in particular for dA=0, dB=10, iso=5 and for dA=2,
dB=8, iso=5 the result is the exact midpoint of A-B (t=1/2), and for dA=0,
dB=4, iso=1 the result is A + (1/4)(B - A) (t=1/4). -/
theorem interpolation_formula (A B : Point3) (dA dB iso : ℚ) (hne : dA ≠ dB) :
    interpolation A B dA dB iso =
      ⟨(1 - (iso - dA) / (dB - dA)) * A.x + (iso - dA) / (dB - dA) * B.x,
       (1 - (iso - dA) / (dB - dA)) * A.y + (iso - dA) / (dB - dA) * B.y,
       (1 - (iso - dA) / (dB - dA)) * A.z + (iso - dA) / (dB - dA) * B.z⟩
    ∧ interpolation A B 0 10 5 =
        ⟨(A.x + B.x) / 2, (A.y + B.y) / 2, (A.z + B.z) / 2⟩
    ∧ interpolation A B 2 8 5 =
        ⟨(A.x + B.x) / 2, (A.y + B.y) / 2, (A.z + B.z) / 2⟩
    ∧ interpolation A B 0 4 1 =
        ⟨A.x + 1 / 4 * (B.x - A.x), A.y + 1 / 4 * (B.y - A.y),
         A.z + 1 / 4 * (B.z - A.z)⟩ := by
  refine ⟨?_, ?_, ?_, ?_⟩ <;>
    refine point3_eq ?_ ?_ ?_ <;>
    simp only [interpolation] <;> norm_num <;> ring

/-- Witness for C7 at A=(0,0,0), B=(2,4,6), dA=0, dB=10, iso=5. -/
theorem interpolation_formula_witness :
    (0 : ℚ) ≠ 10 ∧
      interpolation ⟨0, 0, 0⟩ ⟨2, 4, 6⟩ 0 10 5 = ⟨1, 2, 3⟩ :=
  ⟨by norm_num,
   ((interpolation_formula ⟨0, 0, 0⟩ ⟨2, 4, 6⟩ 0 10 5 (by norm_num)).2.1).trans
     (by refine point3_eq ?_ ?_ ?_ <;> norm_num)⟩

/-- Counterexample to C6: a tetrahedron with all four corner densities equal
to 2 and isovalue 1 is classified with the all-zero mask (no edge flagged as
crossing), yet the loop body of make_triangle still performs all six
interpolation calls on it, each with density pair (2,2), i.e. divisor
dB - dA = 0, so the division-by-zero branch is reached. -/
theorem interpolation_called_on_unflagged_edges :
    classify_tet 1 ⟨[⟨0, 0, 0⟩, ⟨1, 0, 0⟩, ⟨0, 1, 0⟩, ⟨0, 0, 1⟩],
                    [2, 2, 2, 2]⟩ = [0, 0, 0, 0, 0, 0]
    ∧ interpolation_calls ⟨[⟨0, 0, 0⟩, ⟨1, 0, 0⟩, ⟨0, 1, 0⟩, ⟨0, 0, 1⟩],
                           [2, 2, 2, 2]⟩ ≠ []
    ∧ ((2 : ℚ), (2 : ℚ)) ∈ interpolation_calls
        ⟨[⟨0, 0, 0⟩, ⟨1, 0, 0⟩, ⟨0, 1, 0⟩, ⟨0, 0, 1⟩], [2, 2, 2, 2]⟩
    ∧ (2 : ℚ) - 2 = 0 := by
  refine ⟨rfl, by decide, by decide, by norm_num⟩

/-- C6 (amended): make_triangle invokes interpolation unconditionally on all
six edges of every tetrahedron it processes, in edge order p01, p02, p03,
p12, p23, p31, irrespective of the edge-crossing mask, so on a degenerate
edge the zero divisor is reachable. -/
theorem make_triangle_interpolates_all_six_edges
    (v0 v1 v2 v3 : Point3) (d0 d1 d2 d3 : ℚ) :
    interpolation_calls ⟨[v0, v1, v2, v3], [d0, d1, d2, d3]⟩ =
      [(d0, d1), (d0, d2), (d0, d3), (d1, d2), (d2, d3), (d3, d1)] := rfl

/-- C10: whenever a corner position matches a Density Field sample at
position index i, the density value the Voxel Builder reads is the element at
index i - 1 of the density sequence (a signed out-of-bounds access, returning
no value in the total embedding, when i = 0). -/
theorem density_read_previous_index (pc : PointCloud) (v : Point3) (i : ℕ)
    (h : pc.vertices.findIdx? (fun p => decide (p = v)) = some i) :
    density_read pc v = vecGet? pc.density ((i : ℤ) - 1) := by
  simp [density_read, h]

/-- Witness for C10: in a field whose first (index 0) sample is at the
origin with density 5, the lookup of the origin reads index -1 and returns
no value. -/
theorem density_read_previous_index_witness :
    (PointCloud.mk [⟨0, 0, 0⟩] [5]).vertices.findIdx?
        (fun p => decide (p = ⟨0, 0, 0⟩)) = some 0
    ∧ density_read ⟨[⟨0, 0, 0⟩], [5]⟩ ⟨0, 0, 0⟩ = none :=
  ⟨by decide,
   (density_read_previous_index ⟨[⟨0, 0, 0⟩], [5]⟩ ⟨0, 0, 0⟩ 0 (by decide)).trans
     (by decide)⟩

/-- C4: the voxel-corner density lookup does NOT return the matched sample's
tagged density.  In the field with samples (0,0,0) tagged 5 and (1,0,0)
tagged 7, looking up (1,0,0) (matched at index 1, tagged 7) yields 5, the
previous sample's density; looking up a first-position sample is an
out-of-bounds read (no value); and the corner v0 of the voxel built at origin
(1,0,0) is accordingly assigned 5 instead of 7.  A missing position still
yields the sentinel density 1. -/
theorem voxel_density_lookup_off_by_one :
    density_read ⟨[⟨0, 0, 0⟩, ⟨1, 0, 0⟩], [5, 7]⟩ ⟨1, 0, 0⟩ = some 5
    ∧ (PointCloud.mk [⟨0, 0, 0⟩, ⟨1, 0, 0⟩] [5, 7]).density.getD 1 0 = 7
    ∧ (5 : ℚ) ≠ 7
    ∧ density_read ⟨[⟨0, 0, 0⟩], [5]⟩ ⟨0, 0, 0⟩ = none
    ∧ (init_voxel_vertices ⟨[⟨0, 0, 0⟩, ⟨1, 0, 0⟩], [5, 7]⟩
         1 0 0 1 1 1).density.getD 0 0 = 5
    ∧ density_read ⟨[⟨0, 0, 0⟩, ⟨1, 0, 0⟩], [5, 7]⟩ ⟨9, 9, 9⟩ = some 1 := by
  refine ⟨by decide, by decide, by norm_num, by decide, by decide, by decide⟩

/-- Folding the per-cell step over any origin list leaves the accumulated
triangle list unchanged, because process_cell returns its input unchanged. -/
lemma foldl_process_cell_fixed (iso : ℚ) (pc : PointCloud) (dx dy dz : ℚ) :
    ∀ (origins : List Point3) (acc : List Triangle),
      origins.foldl
        (fun triangles o =>
          process_cell iso pc triangles o.x o.y o.z dx dy dz) acc = acc := by
  intro origins
  induction origins with
  | nil => intro acc; rfl
  | cons o rest ih => intro acc; rw [List.foldl_cons]; exact ih acc

/-- C1 fails on the code: every stage after the Voxel Builder receives its
output vector by value, so process_cell returns the accumulated triangle list
unchanged and the driver's final output is empty for every input.  For the
scenario-2 voxel (corner v0 below isovalue 1, the seven others above), the
loop body of make_triangle does emit, locally, exactly the triangles of the
two tetrahedra containing v0 (T3 and T4, list positions 2 and 3) — a
non-empty set — yet the driver's accumulated output over that cell is []. -/
theorem driver_accumulates_no_triangles :
    (∀ (iso : ℚ) (pc : PointCloud) (triangles : List Triangle)
       (x y z dx dy dz : ℚ),
       process_cell iso pc triangles x y z dx dy dz = triangles)
    ∧ (∀ (iso : ℚ) (pc : PointCloud) (origins : List Point3) (dx dy dz : ℚ),
       driver iso pc origins dx dy dz = [])
    ∧ make_triangle_local 1 [] scenario2_tets scenario2_rules =
        make_triangle_tetra 1 (scenario2_tets.getD 2 ⟨[], []⟩)
          (scenario2_rules.getD 2 []) ++
        make_triangle_tetra 1 (scenario2_tets.getD 3 ⟨[], []⟩)
          (scenario2_rules.getD 3 [])
    ∧ make_triangle_local 1 [] scenario2_tets scenario2_rules ≠ []
    ∧ driver 1 scenario2_pointcloud [⟨0, 0, 0⟩] 1 1 1 = [] := by
  refine ⟨fun _ _ _ _ _ _ _ _ _ => rfl,
          fun iso pc origins dx dy dz => foldl_process_cell_fixed iso pc dx dy dz origins [],
          rfl, by intro h; exact absurd (congrArg List.length h) (by decide), rfl⟩
